import Mathlib

/-!
Verification of the etask embedded task-dispatching runtime.

This file gives a shallow embedding, in Lean 4, of the parts of the etask
C++ code base that the specification talks about:

* the lifecycle state bitset (etask/system/tasks/state.hpp together with
  etask/system/state.inl);
* the task manager: register_task and the per-tick update loop with its
  compaction (etask/system/task_manager.tpp);
* the packet header constructors and accessors
  (src/comm/protocol/packet_header.inl);
* the validator seal / is_valid pipeline (src/comm/protocol/validator.tpp);
* the transport interface try_receive filter
  (etask/comm/interfaces/interface.tpp);
* the additive checksum kernel details::sum_generic
  (etask/comm/protocol/compute.tpp);
* the hub fan-in multiplexer (etask/comm/hub/hub.tpp);
* the external bridge channel (template/channels/external_channel.cpp).

Machine integers are modelled as Nat with explicit reduction modulo 2 ^ w
where the C++ performs a conversion; byte buffers are lists of byte values;
fallible operations return Option.  All definitions are executable.
-/

namespace etask

/-! ## Status codes (etask/system/status_code.hpp)

The C++ status_code enum is a uint8_t; it is modelled as Nat with one
definition per enumerator that the claims mention. -/

/-- General success (status_code::ok = 0x00). -/
def status_code.ok : Nat := 0x00

/-- status_code::channel_null = 0x0D: null channel pointer provided. -/
def status_code.channel_null : Nat := 0x0D

/-- status_code::duplicate_task = 0x13: duplicate instance disallowed. -/
def status_code.duplicate_task : Nat := 0x13

/-- status_code::task_unknown = 0x14: uid unknown to the registry. -/
def status_code.task_unknown : Nat := 0x14

/-- status_code::internal_error = 0x1F: unexpected manager fault. -/
def status_code.internal_error : Nat := 0x1F

/-- status_code::task_finished = 0x20: normal termination. -/
def status_code.task_finished : Nat := 0x20

/-! ## Lifecycle state (etask/system/tasks/state.hpp, etask/system/state.inl)

The C++ class state stores a uint8_t bitmask _state of seven one-bit flags
(state_flags, bits 0..6).  Each bit is modelled as one Boolean field.  The
default member initializer in the source is
state_flags _state = state_flags::running;
(etask/system/tasks/state.hpp line 177), i.e. only the running bit (1 << 6)
is set in a default-constructed state, all other bits are clear. -/

structure state where
  /-- bit 0, state_flags::idle -/
  idle : Bool := false
  /-- bit 1, state_flags::started -/
  started : Bool := false
  /-- bit 2, state_flags::finished -/
  finished : Bool := false
  /-- bit 3, state_flags::paused -/
  paused : Bool := false
  /-- bit 4, state_flags::resumed -/
  resumed : Bool := false
  /-- bit 5, state_flags::aborted -/
  aborted : Bool := false
  /-- bit 6, state_flags::running; set in the default-constructed state -/
  running : Bool := true
deriving Repr, DecidableEq

/-- state::is_started: return _state & started. -/
def state.is_started (s : state) : Bool := s.started

/-- state::is_finished: return _state & finished. -/
def state.is_finished (s : state) : Bool := s.finished

/-- state::is_paused: return _state & paused. -/
def state.is_paused (s : state) : Bool := s.paused

/-- state::is_resumed: return _state & resumed. -/
def state.is_resumed (s : state) : Bool := s.resumed

/-- state::is_aborted: return _state & aborted. -/
def state.is_aborted (s : state) : Bool := s.aborted

/-- state::is_running: return _state & running. -/
def state.is_running (s : state) : Bool := s.running

/-- state::is_idle: return _state & idle. -/
def state.is_idle (s : state) : Bool := s.idle

/-- state::set_paused (state.inl line 52): _state = (_state | paused) & ~resumed.
Only bits 3 and 4 are touched. -/
def state.set_paused (s : state) : state := { s with paused := true, resumed := false }

/-- state::set_resumed (state.inl line 57): _state = (_state | resumed) & ~paused.
Only bits 3 and 4 are touched. -/
def state.set_resumed (s : state) : state := { s with resumed := true, paused := false }

/-- state::set_started: _state = _state | started. -/
def state.set_started (s : state) : state := { s with started := true }

/-- state::set_finished: _state = _state | finished. -/
def state.set_finished (s : state) : state := { s with finished := true }

/-- state::set_aborted: _state = _state | aborted. -/
def state.set_aborted (s : state) : state := { s with aborted := true }

/-- state::set_running: _state = (_state | running) & ~idle. -/
def state.set_running (s : state) : state := { s with running := true, idle := false }

/-- state::set_idle: _state = (_state | idle) & ~running. -/
def state.set_idle (s : state) : state := { s with idle := true, running := false }

/-! ## Task manager (etask/system/task_manager.tpp)

A task instance is a value of an arbitrary type with its hook functions
packaged in a task_model record; hooks that mutate the task instance are
state-passing functions; on_complete returns a result envelope together
with a status code, as in the C++ signature
std::pair of envelope and status_code. -/

/-- An owned result blob (etools::memory::envelope): a list of byte values. -/
abbrev envelope := List Nat

/-- The lifecycle hooks of a task type (etask/system/tasks/task.hpp),
state-passing over an instance type tau. -/
structure task_model (tau : Type) where
  on_start : tau → tau
  on_execute : tau → tau
  is_finished : tau → Bool
  on_complete : tau → Bool → envelope × Nat
  on_pause : tau → tau
  on_resume : tau → tau

/-- task_manager::task_info: the per-task record
(task pointer, state, initiator_id, uid, channel pointer).  The channel
pointer is modelled as a Nat identifier; register_task never stores a null
channel. -/
structure task_info (tau : Type) where
  task : tau
  state : state
  initiator_id : Nat
  uid : Nat
  channel : Nat
deriving DecidableEq

/-- One call channel->on_result(initiator_id, uid, result, status_code)
produced during a tick, tagged with the channel the record stores. -/
structure delivery where
  channel : Nat
  initiator_id : Nat
  uid : Nat
  result : envelope
  code : Nat
deriving Repr, DecidableEq

/-- The task hooks the update loop can invoke on a record. -/
inductive hook where
  | start
  | execute
  | pause
  | resume
  | complete (interrupted : Bool)
deriving Repr, DecidableEq

/-- The mutable state of the task_manager: the _tasks vector. -/
structure manager (tau : Type) where
  tasks : List (task_info tau)
deriving DecidableEq

/-- task_manager::register_task (task_manager.tpp lines 30-53).

The registry argument models _registry.emplace(raw_uid, params)
(an etools::factories::static_factory, outside this repository; the
in-repository equivalent etask/tools/registry.tpp construct(key, args)
does a lower_bound lookup and returns nullptr on a miss, otherwise
constructs the instance): it yields some instance when the uid is a key of
the table and none otherwise.

Order of checks as in the source: null channel, then live duplicate uid
(std::find_if over _tasks), then registry construction; on success a record
is appended whose state is the default-constructed state{}. -/
def task_manager.register_task {tau : Type} (registry : Nat → envelope → Option tau)
    (m : manager tau) (origin : Option Nat) (initiator_id uid : Nat)
    (params : envelope) : manager tau × Nat :=
  match origin with
  | Option.none => (m, status_code.channel_null)
  | Option.some ch =>
    if m.tasks.any (fun t => t.uid == uid) then
      (m, status_code.duplicate_task)
    else
      match registry uid params with
      | Option.none => (m, status_code.task_unknown)
      | Option.some t =>
        ({ tasks := m.tasks ++
            [{ task := t, state := {}, initiator_id := initiator_id,
               uid := uid, channel := ch }] },
         status_code.ok)

/-- The outcome of the per-record body of task_manager::update for one
element of _tasks: the updated record, the hooks invoked on it in order,
whether its _garbage bit was set, and the channel deliveries it caused. -/
structure step_result (tau : Type) where
  record : task_info tau
  events : List hook
  reap : Bool
  delivered : List delivery

/-- The loop body of task_manager::update (task_manager.tpp lines 131-179)
for a single record.

Option 0 (a plain if, not chained): when is_idle() and not is_started(),
set running and started and call on_start.  Then the chained options:
aborted, finished, pause edge, resume edge, default execute. -/
def task_manager.step_record {tau : Type} (tm : task_model tau)
    (r0 : task_info tau) : step_result tau :=
  let first := r0.state.is_idle && !r0.state.is_started
  let r : task_info tau :=
    if first then
      { r0 with state := (r0.state.set_running).set_started,
                task := tm.on_start r0.task }
    else r0
  let ev0 : List hook := if first then [hook.start] else []
  if r.state.is_aborted then
    let rc := tm.on_complete r.task true
    { record := r, events := ev0 ++ [hook.complete true], reap := true,
      delivered := [{ channel := r.channel, initiator_id := r.initiator_id,
                      uid := r.uid, result := rc.1, code := rc.2 }] }
  else if tm.is_finished r.task then
    let rc := tm.on_complete r.task false
    { record := r, events := ev0 ++ [hook.complete false], reap := true,
      delivered := [{ channel := r.channel, initiator_id := r.initiator_id,
                      uid := r.uid, result := rc.1, code := rc.2 }] }
  else if r.state.is_paused && r.state.is_running then
    { record := { r with task := tm.on_pause r.task, state := r.state.set_idle },
      events := ev0 ++ [hook.pause], reap := false, delivered := [] }
  else if r.state.is_resumed && r.state.is_idle then
    { record := { r with task := tm.on_resume r.task, state := r.state.set_running },
      events := ev0 ++ [hook.resume], reap := false, delivered := [] }
  else
    { record := { r with task := tm.on_execute r.task },
      events := ev0 ++ [hook.execute], reap := false, delivered := [] }

/-- Helper for erase_remove_if: walk the list with the running index of the
remove_if predicate, dropping the elements whose _garbage bit is set. -/
def erase_remove_if_go {alpha : Type} (garbage : Nat → Bool) :
    List alpha → Nat → List alpha
  | [], _ => []
  | a :: as, i =>
    if garbage i then erase_remove_if_go garbage as (i + 1)
    else a :: erase_remove_if_go garbage as (i + 1)

/-- The compaction at the end of task_manager::update
(task_manager.tpp lines 181-188):
_tasks.erase(std::remove_if(...), _tasks.end()) with the predicate
return _garbage.test(index++) for a mutable index starting at 0.
std::remove_if applies the predicate exactly once to each element, in
order, and keeps the elements for which it returned false in their
original relative order. -/
def erase_remove_if {alpha : Type} (l : List alpha) (garbage : Nat → Bool) :
    List alpha :=
  erase_remove_if_go garbage l 0

/-- What one call of task_manager::update produces: the compacted manager,
the trace of hook invocations (uid, hook) in the order they happened, and
the channel deliveries in order. -/
structure update_result (tau : Type) where
  mgr : manager tau
  trace : List (Nat × hook)
  delivered : List delivery

/-- The stepped records of a tick: the single pass over _tasks in insertion
order, each record processed by the loop body. -/
def task_manager.stepped {tau : Type} (tm : task_model tau) (m : manager tau) :
    List (step_result tau) :=
  m.tasks.map (task_manager.step_record tm)

/-- task_manager::update (task_manager.tpp lines 125-189): reset _garbage,
run the per-record loop over _tasks in order, then compact with
erase(remove_if(...)) over the _garbage bits. -/
def task_manager.update {tau : Type} (tm : task_model tau) (m : manager tau) :
    update_result tau :=
  let steps := task_manager.stepped tm m
  let garbage := fun i => (steps.map (fun s => s.reap)).getD i false
  { mgr := { tasks := erase_remove_if (steps.map (fun s => s.record)) garbage },
    trace := (steps.map (fun s => s.events.map (fun e => (s.record.uid, e)))).flatten,
    delivered := (steps.map (fun s => s.delivered)).flatten }

/-- A concrete single-shot task instance type for evaluating the scheduler:
the instance is a counter, on_start and on_execute increment it,
is_finished is already true on the first check, and on_complete reports
status task_finished. -/
def one_shot_model : task_model Nat :=
  { on_start := fun t => t + 1,
    on_execute := fun t => t + 1,
    is_finished := fun _ => true,
    on_complete := fun t _ => ([t % 256], status_code.task_finished),
    on_pause := fun t => t,
    on_resume := fun t => t }

/-- A concrete registry table knowing exactly the uid 5, whose task is
constructed with counter 0. -/
def demo_registry : Nat → envelope → Option Nat :=
  fun uid _ => if uid == 5 then Option.some 0 else Option.none

/-! ## Protocol configuration (comm/protocol/config.hpp)

ETASK_PROTOCOL_VERSION is 0 and ETASK_BOARD_ID defaults to 0. -/

/-- ETASK_PROTOCOL_VERSION (config.hpp): 0, asserted to lie in 0..3. -/
def ETASK_PROTOCOL_VERSION : Nat := 0

/-- ETASK_BOARD_ID (config.hpp): default 0. -/
def ETASK_BOARD_ID : Nat := 0

/-! ## Packet header (src/comm/protocol/packet_header.hpp and .inl)

The header is a packed 16-bit control word _space, an 8-bit _sender_id with
default member initializer ETASK_BOARD_ID (never written by a constructor),
and an 8-bit receiver_id.  _space is modelled as a Nat kept below 2 ^ 16 by
the uint16_t casts of the source. -/

structure packet_header where
  /-- the 16-bit control word _space -/
  space : Nat
  /-- the _sender_id byte; default member initializer ETASK_BOARD_ID -/
  sender_id : Nat := ETASK_BOARD_ID
  /-- the receiver_id byte -/
  receiver_id : Nat
deriving Repr, DecidableEq

/-- The raw-value constructor (packet_header.inl lines 38-50):
_space = uint16_t((raw_value & ~(0x3 << 11)) | ((ETASK_PROTOCOL_VERSION & 0x3) << 11)).
The complement of the int mask 0x3 << 11 restricted to 16 bits is
0xFFFF xor (0x3 <<< 11). -/
def packet_header.ofRaw (raw_value : Nat) (receiver_id : Nat) : packet_header :=
  { space := ((raw_value % 65536) &&& (0xFFFF ^^^ (0x3 <<< 11))) |||
      ((ETASK_PROTOCOL_VERSION &&& 0x3) <<< 11),
    receiver_id := receiver_id }

/-- The field constructor (packet_header.inl lines 52-73): packs
type, version ETASK_PROTOCOL_VERSION, encrypted, fragmented, priority,
flags, validated and reserved into _space at shifts 12, 10, 9, 8, 5, 2, 1
and 0.  Booleans contribute their 0/1 value as in the uint16_t casts. -/
def packet_header.ofFields (type : Nat) (encrypted fragmented : Bool)
    (priority : Nat) (flags : Nat) (validated reserved : Bool)
    (receiver_id : Nat) : packet_header :=
  { space := ((type &&& 0xF) <<< 12) |||
      ((ETASK_PROTOCOL_VERSION &&& 0x3) <<< 10) |||
      ((cond encrypted 1 0) <<< 9) |||
      ((cond fragmented 1 0) <<< 8) |||
      ((priority &&& 0x7) <<< 5) |||
      ((flags &&& 0x7) <<< 2) |||
      ((cond validated 1 0) <<< 1) |||
      (cond reserved 1 0),
    receiver_id := receiver_id }

/-- packet_header::version (packet_header.inl line 79): (_space >> 10) & 0x3. -/
def packet_header.version (h : packet_header) : Nat := (h.space >>> 10) &&& 0x3

/-! ## Validator pipeline (src/comm/protocol/validator.tpp)

For a framed packet the fcs field is the last member of the packed struct;
seal and is_valid both run the checksum over the first
packet_size - ChecksumPolicy::size bytes, i.e. over every byte before the
fcs field.  A framed packet is therefore modelled as the list of covered
bytes (header, status, task id, payload) plus the fcs value, and the
checksum policy as an arbitrary function from byte lists to values. -/

structure framed_packet where
  /-- the bytes of header, status_code, task_id and payload: everything
  before the trailing fcs field, which is exactly the checksummed range -/
  covered : List Nat
  /-- the stored frame check sequence -/
  fcs : Nat
deriving Repr, DecidableEq

/-- validator::seal (validator.tpp lines 36-44): packet.fcs =
compute(bytes of the packet up to the fcs field). -/
def validator.seal (compute : List Nat → Nat) (p : framed_packet) :
    framed_packet :=
  { p with fcs := compute p.covered }

/-- validator::is_valid (validator.tpp lines 46-54): recompute over the same
range and compare with the stored fcs. -/
def validator.is_valid (compute : List Nat → Nat) (p : framed_packet) : Bool :=
  p.fcs == compute p.covered

/-! ## Transport interface (etask/comm/interfaces/interface.tpp)

interface::try_receive delegates the non-blocking read to the concrete
transport (modelled by the delegate argument: none when fewer than a full
packet's bytes were available) and accepts the packet only when its
receiver_id equals ETASK_BOARD_ID and the validator accepts it.  The
function does nothing else: the replies field collects every packet the
body hands to a send, and the body contains none. -/

structure rx_result (P : Type) where
  received : Option P
  replies : List P
deriving Repr

/-- interface::try_receive (interface.tpp lines 37-44), generic over the
packet type, its receiver_id accessor and the validator of its checksum
policy. -/
def interface.try_receive (P : Type) (delegate : Option P)
    (receiver_id : P → Nat) (is_valid : P → Bool) : rx_result P :=
  { received :=
      match delegate with
      | Option.some p =>
        if receiver_id p == ETASK_BOARD_ID && is_valid p then Option.some p
        else Option.none
      | Option.none => Option.none,
    replies := [] }

/-! ## Additive checksums (etask/comm/protocol/compute.tpp)

details::sum_generic walks the buffer as consecutive words of
sizeof(std::size_t) bytes (w below): each full word is loaded little-endian,
cast to the sum type of n bytes (reduction modulo 2 ^ (8 n)) and added; when
the sum type is as wide as a word the function returns after the word loop;
otherwise the remaining tail bytes are added shifted by
8 * (index mod n) bits, each contribution cast to the sum type. -/

/-- Little-endian value of a list of bytes. -/
def le_value : List Nat → Nat
  | [] => 0
  | b :: bs => (b % 256) + 256 * le_value bs

/-- details::sum_generic (compute.tpp lines 46-77) with word size w
(sizeof(std::size_t)) and sum type of n bytes. -/
def sum_generic (w n : Nat) (data : List Nat) : Nat :=
  let word_count := data.length / w
  let bulk := (List.range word_count).foldl
    (fun sum i => (sum + le_value ((data.drop (i * w)).take w)) % 2 ^ (8 * n)) 0
  if n = w then bulk
  else
    (((data.drop (word_count * w)).enumFrom 0).foldl
      (fun sum p => (sum + (((p.2 % 256) <<< (8 * (p.1 % n))) % 2 ^ (8 * n))) % 2 ^ (8 * n))
      bulk)

/-- compute of policy sum8 (compute.tpp lines 113-116): sum_generic with
value type uint8_t, on a platform whose std::size_t has w bytes. -/
def compute_sum8 (w : Nat) (data : List Nat) : Nat := sum_generic w 1 data

/-- compute of policy sum16 (compute.tpp lines 117-120): sum_generic with
value type uint16_t. -/
def compute_sum16 (w : Nat) (data : List Nat) : Nat := sum_generic w 2 data

/-- compute of policy sum32 (compute.tpp lines 121-124): sum_generic with
value type uint32_t. -/
def compute_sum32 (w : Nat) (data : List Nat) : Nat := sum_generic w 4 data

/-! ## Hub (etask/comm/hub/hub.tpp)

The hub owns its transports in registration order with one send-enable and
one receive-enable bit each (the typeset bitsets).  The constructor sets
the bits of every transport for both directions.  try_receive folds over
the transports in order with short-circuit: a disabled transport is skipped
without polling, an enabled one is polled, and the first packet obtained
ends the fold. -/

structure transport (P : Type) where
  /-- this transport's bit in _sender_statuses -/
  send_enabled : Bool
  /-- this transport's bit in _receiver_statuses -/
  recv_enabled : Bool
  /-- what polling this transport (its interface try_receive) would yield -/
  recv : Option P
deriving Repr, DecidableEq

/-- hub::hub (hub.tpp lines 22-28): use_sender and use_receiver over the
whole interface pack set every bit of both bitsets. -/
def hub.ctor {P : Type} (ts : List (transport P)) : List (transport P) :=
  ts.map (fun t => { t with send_enabled := true, recv_enabled := true })

/-- hub::try_receive (hub.tpp lines 69-104): fold over the transports in
registration order; maybe_try_receive polls the transport only when its
receive bit is set; the first packet short-circuits the fold.  The second
component of the result lists the transports that were polled, in order. -/
def hub.try_receive {P : Type} : List (transport P) → Option P × List (transport P)
  | [] => (Option.none, [])
  | t :: ts =>
    if t.recv_enabled then
      match t.recv with
      | Option.some p => (Option.some p, [t])
      | Option.none =>
        let r := hub.try_receive ts
        (r.1, t :: r.2)
    else
      hub.try_receive ts

/-- Modelled from the spec: the try_receive contract of section 4.6 —
iterate transports in fixed order and return the first packet from any
transport whose receive-enable bit is set.  This definition follows the
spec's words and is compared with hub.try_receive, which follows the
source. -/
def spec_first_enabled_recv {P : Type} : List (transport P) → Option P
  | [] => Option.none
  | t :: ts =>
    if t.recv_enabled && t.recv.isSome then t.recv
    else spec_first_enabled_recv ts

/-! ## External bridge channel (template/channels/external_channel.cpp)

external_channel::update polls the hub, dispatches on the packet's header
flags, and sends an error reply when the resulting status code is not ok.
The local variable status_code code is declared without an initializer; on
the branch where the flags match none of none, abort, pause and resume, no
assignment happens and the subsequent comparison reads an indeterminate
value.  That indeterminate value is made explicit as the argument
indeterminate_code. -/

/-- header_flags of the etask packet header (packet_header.hpp): none = 0,
ack = 1 << 0, error = 1 << 1, heartbeat = 1 << 2, abort = 1 << 3,
pause = 1 << 4, resume = 1 << 5. -/
def header_flags.none : Nat := 0

/-- header_flags::ack = 1. -/
def header_flags.ack : Nat := 1

/-- header_flags::error = 2. -/
def header_flags.error : Nat := 2

/-- header_flags::heartbeat = 4. -/
def header_flags.heartbeat : Nat := 4

/-- header_flags::abort = 8. -/
def header_flags.abort : Nat := 8

/-- header_flags::pause = 16. -/
def header_flags.pause : Nat := 16

/-- header_flags::resume = 32. -/
def header_flags.resume : Nat := 32

/-- The fields of an inbound packet that external_channel::update reads:
header flags, header sender_id, task_id and payload. -/
structure bridge_packet where
  flags : Nat
  sender_id : Nat
  task_id : Nat
  payload : List Nat
deriving Repr, DecidableEq

/-- The error reply packet the bridge synthesizes: receiver iid, flags
error, same task_id, status byte carrying the code. -/
structure bridge_reply where
  receiver_id : Nat
  flags : Nat
  task_id : Nat
  code : Nat
deriving Repr, DecidableEq

/-- The four scheduler operations the bridge can invoke. -/
inductive sched_op where
  | register
  | abort
  | pause
  | resume
deriving Repr, DecidableEq

/-- The scheduler operations available to the bridge, over an abstract
scheduler state sigma: each returns the new state and a status code. -/
structure bridge_ops (sigma : Type) where
  register_task : sigma → Nat → Nat → List Nat → sigma × Nat
  abort_task : sigma → Nat → sigma × Nat
  pause_task : sigma → Nat → sigma × Nat
  resume_task : sigma → Nat → sigma × Nat

/-- What one call of external_channel::update did: the scheduler state
afterwards, the scheduler operations invoked, and the packets handed to the
hub. -/
structure bridge_result (sigma : Type) where
  sched : sigma
  calls : List sched_op
  sent : List bridge_reply
deriving Repr

/-- external_channel::update (external_channel.cpp lines 57-126).  The
recv argument is what global::hub.try_receive() returned;
indeterminate_code is the value the uninitialized local status_code code
happens to hold when no dispatch branch assigns it. -/
def external_channel.update {sigma : Type} (ops : bridge_ops sigma)
    (sched : sigma) (recv : Option bridge_packet)
    (indeterminate_code : Nat) : bridge_result sigma :=
  match recv with
  | Option.none => { sched := sched, calls := [], sent := [] }
  | Option.some p =>
    let iid := p.sender_id
    let uid := p.task_id
    let step : sigma × List sched_op × Nat :=
      if p.flags == header_flags.none then
        let r := ops.register_task sched p.sender_id uid p.payload
        (r.1, [sched_op.register], r.2)
      else if p.flags == header_flags.abort then
        let r := ops.abort_task sched uid
        (r.1, [sched_op.abort], r.2)
      else if p.flags == header_flags.pause then
        let r := ops.pause_task sched uid
        (r.1, [sched_op.pause], r.2)
      else if p.flags == header_flags.resume then
        let r := ops.resume_task sched uid
        (r.1, [sched_op.resume], r.2)
      else
        (sched, [], indeterminate_code)
    if step.2.2 != status_code.ok then
      { sched := step.1, calls := step.2.1,
        sent := [{ receiver_id := iid, flags := header_flags.error,
                   task_id := uid, code := step.2.2 }] }
    else
      { sched := step.1, calls := step.2.1, sent := [] }

/-- A concrete scheduler for evaluating the bridge: the state is a counter
and every operation bumps it by a distinct amount and succeeds. -/
def demo_ops : bridge_ops Nat :=
  { register_task := fun s _ _ _ => (s + 1, status_code.ok),
    abort_task := fun s _ => (s + 2, status_code.ok),
    pause_task := fun s _ => (s + 3, status_code.ok),
    resume_task := fun s _ => (s + 4, status_code.ok) }

end etask

/-- Claim C7, counterexample: on the default-constructed state (only the
running bit set), set_paused leaves the idle flag clear and the running flag
set, so the claimed "set_paused sets the idle flag and clears the running
flag" is false at this concrete input. -/
theorem state_set_paused_claim_false :
    ¬ ((({} : etask.state).set_paused).idle = true ∧
       (({} : etask.state).set_paused).running = false) := by
  decide

/-- Claim C7, amended: state::set_paused sets the paused flag and clears the
resumed flag, leaving idle, running, started, finished and aborted unchanged;
state::set_resumed sets the resumed flag and clears the paused flag, leaving
the other five flags unchanged. -/
theorem state_set_paused_set_resumed_semantics :
    ∀ s : etask.state,
      (s.set_paused).paused = true ∧
      (s.set_paused).resumed = false ∧
      (s.set_paused).idle = s.idle ∧
      (s.set_paused).running = s.running ∧
      (s.set_paused).started = s.started ∧
      (s.set_paused).finished = s.finished ∧
      (s.set_paused).aborted = s.aborted ∧
      (s.set_resumed).resumed = true ∧
      (s.set_resumed).paused = false ∧
      (s.set_resumed).idle = s.idle ∧
      (s.set_resumed).running = s.running ∧
      (s.set_resumed).started = s.started ∧
      (s.set_resumed).finished = s.finished ∧
      (s.set_resumed).aborted = s.aborted := by
  intro s
  exact ⟨rfl, rfl, rfl, rfl, rfl, rfl, rfl, rfl, rfl, rfl, rfl, rfl, rfl, rfl⟩

/-- Helper: the compaction walker keeps a sublist of its input (survivors
stay in their original relative order). -/
theorem erase_remove_if_go_sublist {alpha : Type} (g : Nat → Bool) :
    ∀ (l : List alpha) (n : Nat),
      List.Sublist (etask.erase_remove_if_go g l n) l := by
  intro l
  induction l with
  | nil => intro n; simp [etask.erase_remove_if_go]
  | cons a as ih =>
    intro n
    simp only [etask.erase_remove_if_go]
    by_cases h : g n
    · simp only [h, if_true]
      exact List.Sublist.cons a (ih (n + 1))
    · simp only [h, if_false]
      exact List.Sublist.cons₂ a (ih (n + 1))

/-- Helper: the compaction walker is the indexed filter over the garbage
bits, indices counted from its starting value. -/
theorem erase_remove_if_go_eq_filter {alpha : Type} (g : Nat → Bool) :
    ∀ (l : List alpha) (n : Nat),
      etask.erase_remove_if_go g l n =
        ((l.enumFrom n).filter (fun p => !g p.1)).map Prod.snd := by
  intro l
  induction l with
  | nil => intro n; simp [etask.erase_remove_if_go]
  | cons a as ih =>
    intro n
    simp only [etask.erase_remove_if_go, List.enumFrom, List.filter]
    by_cases h : g n
    · simp [h, ih (n + 1)]
    · simp [h, ih (n + 1)]

/-- Claim C1: evaluation of the scheduler at the failing input.  A task with
uid 5 is registered through register_task (status ok) and followed to
termination: it terminates on its very first tick (is_finished is already
true), its record is reaped, and the complete hook trace of its lifetime is
the single call on_complete(false) — on_start is never invoked, because the
freshly appended record carries the default-constructed state whose only set
bit is running, so the update clause gated on is_idle() and not is_started()
never fires.  The claim (and the Start-first policy note of
task_manager.hpp) requires on_start exactly once before any other hook. -/
theorem scheduler_first_tick_has_no_on_start :
    (etask.task_manager.register_task etask.demo_registry { tasks := [] }
        (Option.some 1) 9 5 []).2 = etask.status_code.ok ∧
    (etask.task_manager.update etask.one_shot_model
        (etask.task_manager.register_task etask.demo_registry { tasks := [] }
          (Option.some 1) 9 5 []).1).trace = [(5, etask.hook.complete false)] ∧
    ((etask.task_manager.update etask.one_shot_model
        (etask.task_manager.register_task etask.demo_registry { tasks := [] }
          (Option.some 1) 9 5 []).1).trace.map Prod.snd).count etask.hook.start = 0 ∧
    (etask.task_manager.update etask.one_shot_model
        (etask.task_manager.register_task etask.demo_registry { tasks := [] }
          (Option.some 1) 9 5 []).1).mgr.tasks = [] := by
  exact ⟨rfl, rfl, rfl, rfl⟩

/-- Claim C2: evaluation of register_task at the failing input and around
it.  A null channel is rejected with channel_null and no change; an unknown
uid is rejected with task_unknown and no change; a registration of the known
uid 5 succeeds with ok and appends exactly one record — but that record's
state is the default-constructed state, whose idle bit is clear and whose
running bit is set, not the state idle the claim demands; a second
registration of uid 5 returns duplicate_task and leaves the single record
untouched. -/
theorem register_task_appends_record_with_running_state :
    (etask.task_manager.register_task etask.demo_registry { tasks := [] }
        Option.none 9 5 []).2 = etask.status_code.channel_null ∧
    (etask.task_manager.register_task etask.demo_registry { tasks := [] }
        Option.none 9 5 []).1 = { tasks := [] } ∧
    (etask.task_manager.register_task etask.demo_registry { tasks := [] }
        (Option.some 1) 9 77 []).2 = etask.status_code.task_unknown ∧
    (etask.task_manager.register_task etask.demo_registry { tasks := [] }
        (Option.some 1) 9 77 []).1 = { tasks := [] } ∧
    (etask.task_manager.register_task etask.demo_registry { tasks := [] }
        (Option.some 1) 9 5 []).2 = etask.status_code.ok ∧
    ((etask.task_manager.register_task etask.demo_registry { tasks := [] }
        (Option.some 1) 9 5 []).1.tasks.map
      (fun r => (r.uid, r.state.is_idle, r.state.is_running, r.state.is_started)))
      = [(5, false, true, false)] ∧
    (etask.task_manager.register_task etask.demo_registry
        (etask.task_manager.register_task etask.demo_registry { tasks := [] }
          (Option.some 1) 9 5 []).1 (Option.some 1) 9 5 []).2
      = etask.status_code.duplicate_task ∧
    (etask.task_manager.register_task etask.demo_registry
        (etask.task_manager.register_task etask.demo_registry { tasks := [] }
          (Option.some 1) 9 5 []).1 (Option.some 1) 9 5 []).1
      = (etask.task_manager.register_task etask.demo_registry { tasks := [] }
          (Option.some 1) 9 5 []).1 := by
  exact ⟨rfl, rfl, rfl, rfl, rfl, rfl, rfl, rfl⟩

/-- Claim C10: the compaction of task_manager::update removes exactly the
records whose garbage bit is set — the surviving records are the indexed
filter of the stepped records — and the survivors form a sublist of the
stepped records, i.e. their relative order is preserved; moreover the tick's
hook trace is the concatenation, in insertion order, of the per-record
traces, so live tasks are processed in registration order. -/
theorem update_compaction_keeps_survivor_order :
    ∀ (tau : Type) (tm : etask.task_model tau) (m : etask.manager tau),
      (etask.task_manager.update tm m).mgr.tasks =
        ((((etask.task_manager.stepped tm m).map (fun s => s.record)).enumFrom 0).filter
            (fun p => !((etask.task_manager.stepped tm m).map (fun s => s.reap)).getD p.1 false)).map
          Prod.snd ∧
      List.Sublist (etask.task_manager.update tm m).mgr.tasks
        ((etask.task_manager.stepped tm m).map (fun s => s.record)) ∧
      (etask.task_manager.update tm m).trace =
        ((m.tasks.map (etask.task_manager.step_record tm)).map
          (fun s => s.events.map (fun e => (s.record.uid, e)))).flatten := by
  intro tau tm m
  refine ⟨?_, ?_, rfl⟩
  · exact erase_remove_if_go_eq_filter _ _ 0
  · exact erase_remove_if_go_sublist _ _ 0

/-- Claim C3: evaluation of the raw-value header constructor at the failing
input.  The constructor pins the version into bits 11 and 12 of _space
(mask 0x3 << 11) while the version accessor reads bits 10 and 11
(_space >> 10), so the raw value 0x0400 — bit 10 set, which the
constructor's mask leaves untouched — yields version() = 1 although
ETASK_PROTOCOL_VERSION is 0.  The sender_id byte is never written and does
equal the configured board id, and the field constructor, which packs the
version at shift 10, does round-trip it. -/
theorem packet_header_raw_ctor_version_bug :
    (etask.packet_header.ofRaw 0x0400 1).version = 1 ∧
    etask.ETASK_PROTOCOL_VERSION = 0 ∧
    (etask.packet_header.ofRaw 0x0400 1).sender_id = etask.ETASK_BOARD_ID ∧
    (etask.packet_header.ofFields 0xF true true 7 7 true true 1).version
      = etask.ETASK_PROTOCOL_VERSION := by
  decide

/-- Claim C4: interface::try_receive yields the packet exactly when the
transport delivered a full packet whose receiver_id equals the configured
board id and whose checksum verifies; in every other case it yields none;
and it hands no reply packet of any kind to a send. -/
theorem interface_try_receive_filter :
    ∀ (P : Type) (delegate : Option P) (rid : P → Nat) (valid : P → Bool)
      (p : P),
      ((etask.interface.try_receive P delegate rid valid).received = Option.some p ↔
        delegate = Option.some p ∧ rid p = etask.ETASK_BOARD_ID ∧ valid p = true) ∧
      (etask.interface.try_receive P delegate rid valid).replies = [] := by
  intro P delegate rid valid p
  constructor
  · cases delegate with
    | none =>
      simp [etask.interface.try_receive]
    | some q =>
      simp only [etask.interface.try_receive]
      by_cases h : (rid q == etask.ETASK_BOARD_ID && valid q) = true
      · rw [if_pos h]
        rw [Bool.and_eq_true, beq_iff_eq] at h
        constructor
        · intro hq
          injection hq with hq
          subst hq
          exact ⟨rfl, h.1, h.2⟩
        · intro hr
          exact hr.1
      · rw [if_neg h]
        constructor
        · intro hq
          simp at hq
        · intro hr
          obtain ⟨h1, h2, h3⟩ := hr
          injection h1 with h1
          subst h1
          exfalso
          apply h
          rw [Bool.and_eq_true, beq_iff_eq]
          exact ⟨h2, h3⟩
  · rfl

/-- Claim C5: sealing a framed packet stores the checksum of the covered
range (every byte before the trailing fcs field) into fcs, and verifying
the unmodified packet recomputes the same value, so is_valid returns true
after seal, for every checksum policy function. -/
theorem validator_seal_then_is_valid :
    ∀ (compute : List Nat → Nat) (p : etask.framed_packet),
      etask.validator.is_valid compute (etask.validator.seal compute p) = true := by
  intro c p
  simp [etask.validator.is_valid, etask.validator.seal]

/-- Claim C6: evaluation of the additive checksum kernel at the failing
inputs.  The word loop of details::sum_generic truncates each word-size
block to the sum type before adding, discarding the block's upper bytes:
on the 8-byte buffer with a single 1 in the second byte the sum8 compute
returns 0 for both a 4-byte and an 8-byte std::size_t, and sum16 and sum32
behave likewise, while the byte-wise sums the claim specifies are 1. -/
theorem sum_generic_ignores_upper_bytes :
    etask.compute_sum8 8 [0, 1, 0, 0, 0, 0, 0, 0] = 0 ∧
    etask.compute_sum8 4 [0, 1, 0, 0, 0, 0, 0, 0] = 0 ∧
    etask.compute_sum16 8 [0, 0, 1, 0, 0, 0, 0, 0] = 0 ∧
    etask.compute_sum32 8 [0, 0, 0, 0, 1, 0, 0, 0] = 0 ∧
    etask.compute_sum32 4 [0, 0, 0, 0, 0, 1, 0, 0] = 256 ∧
    List.sum [0, 1, 0, 0, 0, 0, 0, 0] % 2 ^ 8 = 1 ∧
    List.sum [0, 0, 1, 0, 0, 0, 0, 0] % 2 ^ 16 = 1 ∧
    List.sum [0, 0, 0, 0, 1, 0, 0, 0] % 2 ^ 32 = 1 ∧
    List.sum [0, 0, 0, 0, 0, 1, 0, 0] % 2 ^ 32 = 1 := by
  decide

/-- Helper: the packet hub.try_receive returns is the one the spec's
first-enabled-packet contract names. -/
theorem hub_try_receive_result {P : Type} :
    ∀ ts : List (etask.transport P),
      (etask.hub.try_receive ts).1 = etask.spec_first_enabled_recv ts := by
  intro ts
  induction ts with
  | nil => rfl
  | cons t ts ih =>
    simp only [etask.hub.try_receive, etask.spec_first_enabled_recv]
    by_cases h : t.recv_enabled
    · cases hr : t.recv with
      | some p => simp [h, hr]
      | none => simp [h, hr, ih]
    · simp [h, ih]

/-- Helper: the transports hub.try_receive polls form a sublist of the
transport list, i.e. polling happens in registration order. -/
theorem hub_try_receive_polled_sublist {P : Type} :
    ∀ ts : List (etask.transport P),
      List.Sublist (etask.hub.try_receive ts).2 ts := by
  intro ts
  induction ts with
  | nil => simp [etask.hub.try_receive]
  | cons t ts ih =>
    simp only [etask.hub.try_receive]
    by_cases h : t.recv_enabled
    · cases hr : t.recv with
      | some p => simp [h, hr, List.Sublist.cons, List.nil_sublist]
      | none =>
        simp only [h, hr, if_true]
        exact List.Sublist.cons₂ t ih
    · simp only [h, if_false]
      exact List.Sublist.cons t ih

/-- Helper: hub.try_receive polls only transports whose receive bit is
set. -/
theorem hub_try_receive_polled_enabled {P : Type} :
    ∀ ts : List (etask.transport P),
      ∀ t ∈ (etask.hub.try_receive ts).2, t.recv_enabled = true := by
  intro ts
  induction ts with
  | nil => intro t ht; simp [etask.hub.try_receive] at ht
  | cons u ts ih =>
    intro t ht
    simp only [etask.hub.try_receive] at ht
    by_cases h : u.recv_enabled
    · cases hr : u.recv with
      | some p =>
        simp [h, hr] at ht
        rw [ht]
        exact h
      | none =>
        simp only [h, hr, if_true, List.mem_cons] at ht
        cases ht with
        | inl he => rw [he]; exact h
        | inr hm => exact ih t hm
    · simp only [h, if_false] at ht
      exact ih t ht

/-- Helper: every polled transport except the last yielded nothing — once a
transport yields a packet the fold short-circuits. -/
theorem hub_try_receive_short_circuit {P : Type} :
    ∀ ts : List (etask.transport P),
      ((etask.hub.try_receive ts).2.dropLast).all (fun t => !t.recv.isSome) = true := by
  intro ts
  induction ts with
  | nil => simp [etask.hub.try_receive]
  | cons u ts ih =>
    simp only [etask.hub.try_receive]
    by_cases h : u.recv_enabled
    · cases hr : u.recv with
      | some p => simp [h, hr]
      | none =>
        simp only [h, hr, if_true]
        cases hp : (etask.hub.try_receive ts).2 with
        | nil => simp
        | cons v vs =>
          rw [List.dropLast_cons₂, List.all_cons, Bool.and_eq_true]
          constructor
          · simp [hr]
          · rw [hp] at ih
            exact ih
    · simp only [h, if_false]
      exact ih

/-- Claim C8: at hub construction every transport has both its send-enable
and its receive-enable bit set; hub.try_receive returns exactly the first
packet of a receive-enabled transport in registration order; it polls only
receive-enabled transports, in registration order (the polled transports
are a sublist of the transport list); and it short-circuits: every polled
transport before the last returned nothing. -/
theorem hub_try_receive_first_enabled_in_order :
    ∀ (P : Type) (ts : List (etask.transport P)),
      (∀ t ∈ etask.hub.ctor ts, t.send_enabled = true ∧ t.recv_enabled = true) ∧
      (etask.hub.try_receive ts).1 = etask.spec_first_enabled_recv ts ∧
      List.Sublist (etask.hub.try_receive ts).2 ts ∧
      (∀ t ∈ (etask.hub.try_receive ts).2, t.recv_enabled = true) ∧
      ((etask.hub.try_receive ts).2.dropLast).all (fun t => !t.recv.isSome) = true := by
  intro P ts
  refine ⟨?_, hub_try_receive_result ts, hub_try_receive_polled_sublist ts,
    hub_try_receive_polled_enabled ts, hub_try_receive_short_circuit ts⟩
  intro t ht
  simp only [etask.hub.ctor, List.mem_map] at ht
  obtain ⟨u, _, hu⟩ := ht
  rw [← hu]
  exact ⟨rfl, rfl⟩

/-- Claim C9: evaluation of the external bridge at the failing input.  For
a packet whose header flags are ack — none of none, abort, pause, resume —
no scheduler operation is invoked and the scheduler state is unchanged, but
the local status_code code is never assigned on this path, and whenever its
indeterminate value differs from ok (here: the stack happens to hold
internal_error) the bridge synthesizes and sends an error reply, which the
claim forbids; only when the garbage value happens to equal ok is no reply
sent. -/
theorem external_update_unmatched_flags_reply_bug :
    (etask.external_channel.update etask.demo_ops 0
        (Option.some { flags := etask.header_flags.ack, sender_id := 7,
                       task_id := 5, payload := [] })
        etask.status_code.internal_error).sched = 0 ∧
    (etask.external_channel.update etask.demo_ops 0
        (Option.some { flags := etask.header_flags.ack, sender_id := 7,
                       task_id := 5, payload := [] })
        etask.status_code.internal_error).calls = [] ∧
    (etask.external_channel.update etask.demo_ops 0
        (Option.some { flags := etask.header_flags.ack, sender_id := 7,
                       task_id := 5, payload := [] })
        etask.status_code.internal_error).sent
      = [{ receiver_id := 7, flags := etask.header_flags.error, task_id := 5,
           code := etask.status_code.internal_error }] ∧
    (etask.external_channel.update etask.demo_ops 0
        (Option.some { flags := etask.header_flags.ack, sender_id := 7,
                       task_id := 5, payload := [] })
        etask.status_code.ok).sent = [] := by
  exact ⟨rfl, rfl, rfl, rfl⟩

/-- Witness for the transport interface theorem: at the concrete delegate
some 0 with matching receiver and passing validator, the packet is
accepted. -/
theorem interface_try_receive_filter_witness :
    (etask.interface.try_receive Nat (Option.some 0) (fun _ => 0)
        (fun _ => true)).received = Option.some 0 :=
  ((interface_try_receive_filter Nat (Option.some 0) (fun _ => 0)
      (fun _ => true) 0).1).mpr ⟨rfl, rfl, rfl⟩

/-- Witness for the hub theorem: on the concrete one-transport hub built
with both bits initially clear, the constructor leaves the transport with
both enable bits set. -/
theorem hub_try_receive_first_enabled_in_order_witness :
    (⟨true, true, (Option.some 7 : Option Nat)⟩ : etask.transport Nat).send_enabled = true ∧
    (⟨true, true, (Option.some 7 : Option Nat)⟩ : etask.transport Nat).recv_enabled = true :=
  (hub_try_receive_first_enabled_in_order Nat
      [⟨false, false, Option.some 7⟩]).1
    ⟨true, true, Option.some 7⟩ (by simp [etask.hub.ctor])
